import Mathlib

/-!
Verification of the rural health tracker's session-guard and identity-issuance
slice, shallowly embedded from the Express route layer (`registerRoutes` and its
middleware) and, where the storage layer is outside the provided sources, from
the specification's storage contract.
-/

namespace RuralHealth

/-- An error raised by the user-store lookup collaborator (e.g. transient
unavailability).  The guards contain no `try`/`catch`, so such an error leaves
the guard untouched. -/
structure StoreErr where
  msg : String
deriving DecidableEq, Repr

/-- A persistent user record, as consumed by the route layer: unique username,
stored password, display name, optional email/phone, role string
(`"admin"` or `"health_worker"`), active flag. -/
structure User where
  id : Nat
  username : String
  password : String
  name : String
  email : Option String := none
  phone : Option String := none
  role : String
  isActive : Bool
deriving DecidableEq, Repr

/-- The result a guard middleware hands to the rest of the request pipeline:
either the chain proceeds (`next()` was called, possibly after `req.user` was
set), or a rejection response was written, or the `await storage.getUser`
promise rejected and the error escaped the guard (the framework layer renders
such an escaped error as an internal 500 response). -/
inductive Outcome where
  /-- `next()` was called; `attached` is the value stored in `req.user`
  (`none` when the guard never sets `req.user`). -/
  | proceed (attached : Option User)
  /-- `res.status(status).json(\x7b message \x7d)` was sent. -/
  | reject (status : Nat) (message : String)
  /-- the store-lookup error escaped the guard unchanged. -/
  | storeFail (e : StoreErr)
deriving DecidableEq, Repr

/-- HTTP status of an outcome, `none` for a proceeding chain.  An escaped store
error is rendered by the surrounding layer as an internal error (500). -/
def Outcome.status : Outcome → Option Nat
  | .proceed _ => none
  | .reject s _ => some s
  | .storeFail _ => some 500

/-- Observable result of running a guard middleware: its outcome, how many
user-store lookups it performed, and whether it called
`req.session.destroy`. -/
structure GuardResult where
  outcome : Outcome
  lookups : Nat
  sessionDestroyed : Bool
deriving DecidableEq, Repr

/-- Shallow embedding of the `requireAuth` middleware (routes file, lines
11-31).  `sessionUserId` is `req.session?.userId`; `getUser` is
`storage.getUser`, which either yields an optional user or fails; `destroyErr`
is the error (if any) the session store passes to the `req.session.destroy`
callback — the source callback is `() => \x7b\x7d`, so it is swallowed and the
result cannot depend on it.

Source: if there is no session user id, respond 401 `"Unauthorized"`; otherwise
look the user up; if the user is missing or inactive, destroy the session and
respond 401 `"Unauthorized"`; otherwise set `req.user` to the full record and
call `next()`. -/
def requireAuth (sessionUserId : Option Nat)
    (getUser : Nat → Except StoreErr (Option User))
    (destroyErr : Option String) : GuardResult :=
  match sessionUserId with
  | none => { outcome := .reject 401 "Unauthorized", lookups := 0, sessionDestroyed := false }
  | some uid =>
    match getUser uid with
    | .error e => { outcome := .storeFail e, lookups := 1, sessionDestroyed := false }
    | .ok none =>
      -- `req.session.destroy(() => \x7b\x7d)`: attempted, failure ignored.
      let _ := destroyErr
      { outcome := .reject 401 "Unauthorized", lookups := 1, sessionDestroyed := true }
    | .ok (some u) =>
      if !u.isActive then
        let _ := destroyErr
        { outcome := .reject 401 "Unauthorized", lookups := 1, sessionDestroyed := true }
      else
        { outcome := .proceed (some u), lookups := 1, sessionDestroyed := false }

/-- Shallow embedding of the `requireAdmin` middleware (routes file, lines
33-44; identical in both revisions of the routes file).

Source: if there is no session user id, respond 401 `"Unauthorized"`; otherwise
look the user up; if the user is missing or its role is not `"admin"`, respond
403 `"Admin access required"`; otherwise call `next()` (without setting
`req.user` and without any active-flag check or session destruction). -/
def requireAdmin (sessionUserId : Option Nat)
    (getUser : Nat → Except StoreErr (Option User)) : GuardResult :=
  match sessionUserId with
  | none => { outcome := .reject 401 "Unauthorized", lookups := 0, sessionDestroyed := false }
  | some uid =>
    match getUser uid with
    | .error e => { outcome := .storeFail e, lookups := 1, sessionDestroyed := false }
    | .ok none =>
      { outcome := .reject 403 "Admin access required", lookups := 1, sessionDestroyed := false }
    | .ok (some u) =>
      if u.role = "admin" then
        { outcome := .proceed none, lookups := 1, sessionDestroyed := false }
      else
        { outcome := .reject 403 "Admin access required", lookups := 1, sessionDestroyed := false }

/-- A user record as sent over the wire: the `password` field has been
dropped, mirroring `const \x7b password: _, ...userWithoutPassword \x7d = user`
in the route handlers. -/
structure PublicUser where
  id : Nat
  username : String
  name : String
  email : Option String := none
  phone : Option String := none
  role : String
  isActive : Bool
deriving DecidableEq, Repr

/-- Drop the secret field, as the route handlers' destructuring does. -/
def User.toPublic (u : User) : PublicUser :=
  { id := u.id, username := u.username, name := u.name, email := u.email,
    phone := u.phone, role := u.role, isActive := u.isActive }

/-- In-memory view of the user store, as far as the route layer observes it. -/
structure UserStore where
  users : List User
  nextId : Nat
deriving DecidableEq, Repr

/-- `storage.getUserByUsername`: the record whose username matches, if any.
Modelled from the spec: `getUserByUsername(name) -> User?` (the storage module
itself is outside the provided sources). -/
def getUserByUsername (s : UserStore) (username : String) : Option User :=
  s.users.find? (fun u => u.username = username)

/-- `storage.getAllUsers`.  Modelled from the spec: the store's user listing,
used by the signup handler only for its length (`countUsers`). -/
def getAllUsers (s : UserStore) : List User :=
  s.users

/-- The argument record the signup handler passes to `storage.createUser`. -/
structure NewUserFields where
  username : String
  password : String
  name : String
  email : Option String
  phone : Option String
  role : String
  isActive : Bool
deriving DecidableEq, Repr

/-- Modelled from the spec: `createUser(fields) -> User` (§6) — the storage
module is outside the provided sources, so creation is modelled as persisting
the given fields verbatim under a fresh server-assigned id. -/
def createUser (s : UserStore) (f : NewUserFields) : User × UserStore :=
  let u : User :=
    { id := s.nextId, username := f.username, password := f.password, name := f.name,
      email := f.email, phone := f.phone, role := f.role, isActive := f.isActive }
  (u, { users := s.users ++ [u], nextId := s.nextId + 1 })

/-- Body of a signup request.  JavaScript truthiness of the three required
string fields is modelled as non-emptiness; a missing optional field is `none`
and an empty-string optional field is normalised by `x || null` below. -/
structure SignupRequest where
  username : String
  password : String
  name : String
  email : Option String := none
  phone : Option String := none
  isFirstUser : Bool := false
deriving DecidableEq, Repr

/-- A route handler's JSON response: an error status with message, or a user
payload (password stripped). -/
inductive RouteResponse where
  | error (status : Nat) (message : String)
  | userPayload (u : PublicUser)
deriving DecidableEq, Repr

/-- Everything the signup handler did: the response it sent, the store it left
behind, and the fields it passed to `storage.createUser` (`none` when
`createUser` was never called). -/
structure SignupOutput where
  response : RouteResponse
  store : UserStore
  createUserArg : Option NewUserFields
deriving DecidableEq, Repr

/-- `x || null` on an optional string field of the request body. -/
def orNull : Option String → Option String
  | some s => if s = "" then none else some s
  | none => none

/-- Shallow embedding of `app.post("/api/auth/signup")` (routes file, lines
65-110): reject 400 when username, password or name is missing; reject 400
`"Username already exists"` when the username is taken; otherwise compute the
role — `"admin"` when the store is empty or the request flags itself as first
user, else `"health_worker"` — and create the user with `isActive := true`,
responding with the record minus its password.  (Setting the session cookie is
not modelled.) -/
def signup (req : SignupRequest) (s : UserStore) : SignupOutput :=
  if req.username = "" ∨ req.password = "" ∨ req.name = "" then
    { response := .error 400 "Username, password, and name are required",
      store := s, createUserArg := none }
  else
    match getUserByUsername s req.username with
    | some _ =>
      { response := .error 400 "Username already exists", store := s, createUserArg := none }
    | none =>
      let role := if (getAllUsers s).length = 0 ∨ req.isFirstUser then "admin" else "health_worker"
      let fields : NewUserFields :=
        { username := req.username, password := req.password, name := req.name,
          email := orNull req.email, phone := orNull req.phone,
          role := role, isActive := true }
      let res := createUser s fields
      { response := .userPayload res.1.toPublic, store := res.2, createUserArg := some fields }

/-- Shallow embedding of `app.post("/api/auth/login")` (routes file, lines
112-140).  `bcryptCompare` abstracts `bcrypt.compare(plain, stored)`.  Reject
400 when username or password is missing; reject 401 `"Invalid credentials"`
when the user is missing, inactive, or the comparison fails; otherwise respond
with the record minus its password.  (Setting the session cookie is not
modelled.) -/
def login (bcryptCompare : String → String → Bool)
    (username password : String) (s : UserStore) : RouteResponse :=
  if username = "" ∨ password = "" then
    .error 400 "Username and password are required"
  else
    match getUserByUsername s username with
    | none => .error 401 "Invalid credentials"
    | some u =>
      if !u.isActive then .error 401 "Invalid credentials"
      else if bcryptCompare password u.password then .userPayload u.toPublic
      else .error 401 "Invalid credentials"

/-- Decimal digits of `n`, most significant first, each in `0..9`.  Used by the
spec-modelled identifier issuance below. -/
def natDigits (n : Nat) : List Nat :=
  if _h : n < 10 then [n]
  else natDigits (n / 10) ++ [n % 10]
decreasing_by
  exact Nat.div_lt_self (by omega) (by omega)

/-- Left-pad a digit list with zeros to at least `width` digits. -/
def padDigits (width : Nat) (l : List Nat) : List Nat :=
  List.replicate (width - l.length) 0 ++ l

/-- The character for a decimal digit value. -/
def digitChar (d : Nat) : Char :=
  Char.ofNat (48 + d)

/-- Modelled from the spec: `issuePatientIdentifier(sequenceSource) ->
identifier` (§4.2) — the storage module that implements it is outside the
provided sources.  A fixed prefix `"RH"` followed by the zero-padded (width 6)
decimal numeral of the sequence number, e.g. sequence 1234 gives
`"RH001234"`. -/
def issuePatientIdentifier (seq : Nat) : String :=
  "RH" ++ String.mk ((padDigits 6 (natDigits seq)).map digitChar)

/-- Modelled from the spec: `issueQrToken(patient) -> token` (§4.2) — an opaque
token unique per patient and bound 1:1 to the patient identifier. -/
def issueQrToken (seq : Nat) : String :=
  "QR-" ++ issuePatientIdentifier seq

/-- A patient record, restricted to the fields the identifier-issuance slice
touches: internal key, name, external human-readable identifier, QR token. -/
structure Patient where
  id : Nat
  name : String
  patientId : String
  qrCode : String
deriving DecidableEq, Repr

/-- Modelled from the spec: the patient store with its sequence source.
`nextSeq` feeds both the internal key and the issued identifier/token. -/
structure PatientStore where
  patients : List Patient
  nextSeq : Nat
deriving DecidableEq, Repr

/-- A patient store is well formed when every persisted internal key is below
the sequence counter (true of every store reachable from the empty one). -/
def PatientStore.Wf (s : PatientStore) : Prop :=
  ∀ p ∈ s.patients, p.id < s.nextSeq

instance (s : PatientStore) : Decidable s.Wf := by
  unfold PatientStore.Wf
  infer_instance

/-- Modelled from the spec: `createPatient` persisting a record with
server-assigned identifier and token (§6); identifier and token are assigned
once, from the current sequence number, and never rewritten. -/
def createPatient (s : PatientStore) (name : String) : Patient × PatientStore :=
  let p : Patient :=
    { id := s.nextSeq, name := name,
      patientId := issuePatientIdentifier s.nextSeq,
      qrCode := issueQrToken s.nextSeq }
  (p, { patients := s.patients ++ [p], nextSeq := s.nextSeq + 1 })

/-- Fetch a patient by internal key. -/
def getPatient (s : PatientStore) (id : Nat) : Option Patient :=
  s.patients.find? (fun p => p.id = id)

/-! ### Digit-string helper lemmas -/

theorem natDigits_lt (n : Nat) : ∀ d ∈ natDigits n, d < 10 := by
  induction n using Nat.strong_induction_on with
  | _ n ih =>
    rw [natDigits]
    split
    · intro d hd
      simp only [List.mem_singleton] at hd
      omega
    · intro d hd
      rcases List.mem_append.mp hd with h | h
      · exact ih (n / 10) (Nat.div_lt_self (by omega) (by omega)) d h
      · simp only [List.mem_singleton] at h
        omega

theorem foldl_natDigits (n : Nat) : ∀ a : Nat,
    (natDigits n).foldl (fun x d => x * 10 + d) a = a * 10 ^ (natDigits n).length + n := by
  induction n using Nat.strong_induction_on with
  | _ n ih =>
    intro a
    rw [natDigits]
    split
    · simp [List.foldl]
    · rw [List.foldl_append, List.length_append,
        ih (n / 10) (Nat.div_lt_self (by omega) (by omega)) a]
      simp only [List.foldl, List.length_singleton]
      rw [Nat.pow_succ]
      have hmod := Nat.div_add_mod n 10
      ring_nf
      omega

theorem foldl_replicate_zero (k : Nat) :
    (List.replicate k 0).foldl (fun x d : Nat => x * 10 + d) 0 = 0 := by
  induction k with
  | zero => rfl
  | succ k ih => simpa using ih

theorem decode_padDigits (w n : Nat) :
    (padDigits w (natDigits n)).foldl (fun x d => x * 10 + d) 0 = n := by
  unfold padDigits
  rw [List.foldl_append, foldl_replicate_zero, foldl_natDigits]
  simp

theorem padDigits_natDigits_inj (w m n : Nat)
    (h : padDigits w (natDigits m) = padDigits w (natDigits n)) : m = n := by
  have hm := decode_padDigits w m
  have hn := decode_padDigits w n
  rw [h] at hm
  omega

theorem digitChar_inj_lt : ∀ d1 < 10, ∀ d2 < 10, digitChar d1 = digitChar d2 → d1 = d2 := by
  decide

theorem map_digitChar_inj : ∀ l1 l2 : List Nat, (∀ d ∈ l1, d < 10) → (∀ d ∈ l2, d < 10) →
    l1.map digitChar = l2.map digitChar → l1 = l2 := by
  intro l1
  induction l1 with
  | nil =>
    intro l2 _ _ h
    cases l2 with
    | nil => rfl
    | cons b t => simp at h
  | cons a t1 ih =>
    intro l2 h1 h2 h
    cases l2 with
    | nil => simp at h
    | cons b t2 =>
      simp only [List.map_cons, List.cons.injEq] at h
      have ha : a = b :=
        digitChar_inj_lt a (h1 a (List.mem_cons_self a t1)) b
          (h2 b (List.mem_cons_self b t2)) h.1
      have ht : t1 = t2 :=
        ih t2 (fun d hd => h1 d (List.mem_cons_of_mem a hd))
          (fun d hd => h2 d (List.mem_cons_of_mem b hd)) h.2
      rw [ha, ht]

theorem padDigits_natDigits_all_lt (w n : Nat) :
    ∀ d ∈ padDigits w (natDigits n), d < 10 := by
  intro d hd
  rcases List.mem_append.mp hd with h | h
  · have := List.eq_of_mem_replicate h
    omega
  · exact natDigits_lt n d h

theorem issuePatientIdentifier_inj (m n : Nat)
    (h : issuePatientIdentifier m = issuePatientIdentifier n) : m = n := by
  unfold issuePatientIdentifier at h
  have hdata := congrArg String.data h
  simp only [String.data_append] at hdata
  have hl : (padDigits 6 (natDigits m)).map digitChar
      = (padDigits 6 (natDigits n)).map digitChar :=
    List.append_cancel_left hdata
  exact padDigits_natDigits_inj 6 m n
    (map_digitChar_inj _ _ (padDigits_natDigits_all_lt 6 m) (padDigits_natDigits_all_lt 6 n) hl)

theorem issueQrToken_inj (m n : Nat)
    (h : issueQrToken m = issueQrToken n) : m = n := by
  unfold issueQrToken at h
  have hdata := congrArg String.data h
  simp only [String.data_append] at hdata
  have := List.append_cancel_left hdata
  exact issuePatientIdentifier_inj m n (congrArg String.mk this)

theorem padDigits_length_ge (w : Nat) (l : List Nat) :
    w ≤ (padDigits w l).length := by
  unfold padDigits
  rw [List.length_append, List.length_replicate]
  omega

/-! ### Concrete records used by witnesses and counterexamples -/

/-- An active health-worker user whose stored password is nonempty. -/
def activeUserSecret : User :=
  { id := 1, username := "alice", password := "s3cret", name := "Alice",
    role := "health_worker", isActive := true }

/-- An admin user whose active flag is false. -/
def inactiveAdmin : User :=
  { id := 5, username := "carol", password := "pw", name := "Carol",
    role := "admin", isActive := false }

/-- The empty user store. -/
def emptyUsers : UserStore := { users := [], nextId := 1 }

/-- A store holding only `activeUserSecret`. -/
def storeWithAlice : UserStore := { users := [activeUserSecret], nextId := 2 }

/-- A signup request for a fresh username. -/
def aliceReq : SignupRequest :=
  { username := "alice", password := "pw", name := "Alice" }

/-- A second signup request, without the bootstrap flag. -/
def bobReq : SignupRequest :=
  { username := "bob", password := "pw", name := "Bob" }

/-- The empty patient store. -/
def emptyPatients : PatientStore := { patients := [], nextSeq := 1 }

/-! ### Claim theorems -/

/-- C1: for every session whose user-id resolves to no user record or to a
user whose active flag is false, `requireAuth` rejects the request with 401
Unauthorized and destroys the session; destruction is best-effort — the
result is identical whatever error the destroy callback is handed, so a
destruction failure is swallowed and never surfaced. -/
theorem requireAuth_missing_or_inactive_rejects
    (uid : Nat) (getUser : Nat → Except StoreErr (Option User))
    (destroyErr destroyErr2 : Option String)
    (h : getUser uid = .ok none ∨ ∃ u, getUser uid = .ok (some u) ∧ u.isActive = false) :
    (requireAuth (some uid) getUser destroyErr).outcome = .reject 401 "Unauthorized" ∧
    (requireAuth (some uid) getUser destroyErr).sessionDestroyed = true ∧
    requireAuth (some uid) getUser destroyErr = requireAuth (some uid) getUser destroyErr2 := by
  rcases h with h | ⟨u, h, hu⟩
  · simp [requireAuth, h]
  · simp [requireAuth, h, hu]

/-- C1 witness: a concrete session whose user-id resolves to no record. -/
theorem requireAuth_missing_or_inactive_rejects_witness :
    (requireAuth (some 7) (fun _ => .ok none) none).outcome = .reject 401 "Unauthorized" ∧
    (requireAuth (some 7) (fun _ => .ok none) none).sessionDestroyed = true ∧
    requireAuth (some 7) (fun _ => .ok none) none
      = requireAuth (some 7) (fun _ => .ok none) (some ("destroy failed")) :=
  requireAuth_missing_or_inactive_rejects 7 (fun _ => .ok none) none
    (some ("destroy failed")) (Or.inl rfl)

/-- C5: for every request whose session carries no user-id, `requireAuth`
rejects with 401 Unauthorized and performs no user-store lookup: the result is
the same constant for every store, with a lookup count of zero. -/
theorem requireAuth_no_session_no_lookup
    (getUser : Nat → Except StoreErr (Option User)) (destroyErr : Option String) :
    requireAuth none getUser destroyErr
      = { outcome := .reject 401 "Unauthorized", lookups := 0, sessionDestroyed := false } :=
  rfl

/-- C6: failed authentication is generic — the rejection produced for a
request with no session is exactly the rejection produced for a session
referencing a missing or inactive user (both 401 `"Unauthorized"`), so the
response never reveals which case applied. -/
theorem auth_failure_indistinguishable
    (uid : Nat) (g1 g2 : Nat → Except StoreErr (Option User)) (d1 d2 : Option String)
    (h : g2 uid = .ok none ∨ ∃ u, g2 uid = .ok (some u) ∧ u.isActive = false) :
    (requireAuth none g1 d1).outcome = (requireAuth (some uid) g2 d2).outcome ∧
    (requireAuth (some uid) g2 d2).outcome = .reject 401 "Unauthorized" := by
  rcases h with h | ⟨u, h, hu⟩
  · simp [requireAuth, h]
  · simp [requireAuth, h, hu]

/-- C6 witness: the no-session run and a concrete inactive-user run produce
the same rejection. -/
theorem auth_failure_indistinguishable_witness :
    (requireAuth none (fun _ => .ok none) none).outcome
      = (requireAuth (some 5) (fun _ => .ok (some inactiveAdmin)) none).outcome ∧
    (requireAuth (some 5) (fun _ => .ok (some inactiveAdmin)) none).outcome
      = .reject 401 "Unauthorized" :=
  auth_failure_indistinguishable 5 (fun _ => .ok none)
    (fun _ => .ok (some inactiveAdmin)) none none (Or.inr ⟨inactiveAdmin, rfl, rfl⟩)

/-- C2 counterexample: a session whose user-id resolves to no user record is
rejected by `requireAdmin` with 403 `"Admin access required"`, not with 401
Unauthorized, and the session is not destroyed — contradicting the claim that
`requireAdmin` performs the same resolution as `requireAuth` in the
missing-user case. -/
theorem requireAdmin_missing_user_not_unauthorized :
    (requireAdmin (some 1) (fun _ => .ok none)).outcome
      = .reject 403 "Admin access required" ∧
    (requireAdmin (some 1) (fun _ => .ok none)).outcome ≠ .reject 401 "Unauthorized" ∧
    (requireAdmin (some 1) (fun _ => .ok none)).sessionDestroyed = false := by
  refine ⟨rfl, ?_, rfl⟩
  decide

/-- C2 amended: `requireAdmin` rejects with 401 Unauthorized only when the
session carries no user-id; otherwise it looks the user up and rejects with
403 Forbidden exactly when the record is missing or its role is not admin —
with no active-flag check and no session destruction on any path — and
proceeds when role is admin, even for an inactive user. -/
theorem requireAdmin_resolution
    (sid : Option Nat) (getUser : Nat → Except StoreErr (Option User)) :
    (sid = none →
      requireAdmin sid getUser
        = { outcome := .reject 401 "Unauthorized", lookups := 0, sessionDestroyed := false }) ∧
    (∀ uid, sid = some uid → getUser uid = .ok none →
      (requireAdmin sid getUser).outcome = .reject 403 "Admin access required") ∧
    (∀ uid u, sid = some uid → getUser uid = .ok (some u) → u.role ≠ "admin" →
      (requireAdmin sid getUser).outcome = .reject 403 "Admin access required") ∧
    (∀ uid u, sid = some uid → getUser uid = .ok (some u) → u.role = "admin" →
      (requireAdmin sid getUser).outcome = .proceed none) ∧
    (requireAdmin sid getUser).sessionDestroyed = false := by
  refine ⟨?_, ?_, ?_, ?_, ?_⟩
  · rintro rfl
    rfl
  · rintro uid rfl h
    simp [requireAdmin, h]
  · rintro uid u rfl h hrole
    simp [requireAdmin, h, hrole]
  · rintro uid u rfl h hrole
    simp [requireAdmin, h, hrole]
  · rcases sid with _ | uid
    · rfl
    · rcases h : getUser uid with e | u
      · simp [requireAdmin, h]
      · rcases u with _ | u
        · simp [requireAdmin, h]
        · by_cases hrole : u.role = "admin" <;> simp [requireAdmin, h, hrole]

/-- C2 witness: an inactive admin's session proceeds through `requireAdmin`
(no active-flag check), with no session destruction. -/
theorem requireAdmin_resolution_witness :
    (requireAdmin (some 5) (fun _ => .ok (some inactiveAdmin))).outcome = .proceed none ∧
    (requireAdmin (some 5) (fun _ => .ok (some inactiveAdmin))).sessionDestroyed = false := by
  obtain ⟨_, _, _, hadmin, hdestroy⟩ :=
    requireAdmin_resolution (some 5) (fun _ => .ok (some inactiveAdmin))
  exact ⟨hadmin 5 inactiveAdmin rfl rfl rfl, hdestroy⟩

/-- C3 counterexample: for a session resolving to a concrete active user whose
stored password is `"s3cret"`, `requireAuth` attaches the full user record with
its password field intact — not the record with the secret field removed. -/
theorem requireAuth_attaches_password_counterexample :
    (requireAuth (some 1) (fun _ => .ok (some activeUserSecret)) none).outcome
      = .proceed (some activeUserSecret) ∧
    activeUserSecret.password = "s3cret" ∧
    (requireAuth (some 1) (fun _ => .ok (some activeUserSecret)) none).outcome
      ≠ .proceed (some { activeUserSecret with password := "" }) := by
  refine ⟨rfl, rfl, ?_⟩
  decide

/-- C3 amended: for every session whose user-id resolves to an existing active
user, `requireAuth` attaches exactly that full user record — including the
password field, which the guard does not strip (route handlers do that before
responding) — and lets the request proceed. -/
theorem requireAuth_active_attaches_full_record
    (uid : Nat) (getUser : Nat → Except StoreErr (Option User)) (d : Option String)
    (u : User) (h : getUser uid = .ok (some u)) (hact : u.isActive = true) :
    requireAuth (some uid) getUser d
      = { outcome := .proceed (some u), lookups := 1, sessionDestroyed := false } := by
  simp [requireAuth, h, hact]

/-- C3 witness: the amended behavior at a concrete active user. -/
theorem requireAuth_active_attaches_full_record_witness :
    requireAuth (some 1) (fun _ => .ok (some activeUserSecret)) none
      = { outcome := .proceed (some activeUserSecret), lookups := 1,
          sessionDestroyed := false } :=
  requireAuth_active_attaches_full_record 1 (fun _ => .ok (some activeUserSecret)) none
    activeUserSecret rfl rfl

/-- C7: each gate yields exactly one of proceed-with-identity, reject-401,
reject-403 or a propagated store failure (rendered as internal 500); when the
user-store lookup fails, the failure surfaces from both guards unchanged; and
neither guard ever performs more than one lookup (no retry). -/
theorem guard_outcome_taxonomy
    (sid : Option Nat) (getUser : Nat → Except StoreErr (Option User))
    (d : Option String) :
    ((∃ u, (requireAuth sid getUser d).outcome = .proceed u) ∨
      (requireAuth sid getUser d).outcome = .reject 401 "Unauthorized" ∨
      (∃ e, (requireAuth sid getUser d).outcome = .storeFail e)) ∧
    ((requireAdmin sid getUser).outcome = .proceed none ∨
      (requireAdmin sid getUser).outcome = .reject 401 "Unauthorized" ∨
      (requireAdmin sid getUser).outcome = .reject 403 "Admin access required" ∨
      (∃ e, (requireAdmin sid getUser).outcome = .storeFail e)) ∧
    (∀ uid e, sid = some uid → getUser uid = .error e →
      (requireAuth sid getUser d).outcome = .storeFail e ∧
      (requireAdmin sid getUser).outcome = .storeFail e ∧
      ((requireAuth sid getUser d).outcome).status = some 500) ∧
    (requireAuth sid getUser d).lookups ≤ 1 ∧
    (requireAdmin sid getUser).lookups ≤ 1 := by
  have hmain : ∀ uid, sid = some uid →
      ((∃ u, (requireAuth sid getUser d).outcome = .proceed u) ∨
        (requireAuth sid getUser d).outcome = .reject 401 "Unauthorized" ∨
        (∃ e, (requireAuth sid getUser d).outcome = .storeFail e)) ∧
      ((requireAdmin sid getUser).outcome = .proceed none ∨
        (requireAdmin sid getUser).outcome = .reject 401 "Unauthorized" ∨
        (requireAdmin sid getUser).outcome = .reject 403 "Admin access required" ∨
        (∃ e, (requireAdmin sid getUser).outcome = .storeFail e)) := by
    rintro uid rfl
    rcases h : getUser uid with e | u
    · exact ⟨Or.inr (Or.inr ⟨e, by simp [requireAuth, h]⟩),
        Or.inr (Or.inr (Or.inr ⟨e, by simp [requireAdmin, h]⟩))⟩
    · rcases u with _ | u
      · exact ⟨Or.inr (Or.inl (by simp [requireAuth, h])),
          Or.inr (Or.inr (Or.inl (by simp [requireAdmin, h])))⟩
      · constructor
        · by_cases hact : u.isActive
          · exact Or.inl ⟨some u, by simp [requireAuth, h, hact]⟩
          · exact Or.inr (Or.inl (by simp [requireAuth, h, hact]))
        · by_cases hrole : u.role = "admin"
          · exact Or.inl (by simp [requireAdmin, h, hrole])
          · exact Or.inr (Or.inr (Or.inl (by simp [requireAdmin, h, hrole])))
  rcases sid with _ | uid
  · exact ⟨Or.inr (Or.inl rfl), Or.inr (Or.inl rfl), by rintro uid e ⟨⟩, by simp [requireAuth],
      by simp [requireAdmin]⟩
  · refine ⟨(hmain uid rfl).1, (hmain uid rfl).2, ?_, ?_, ?_⟩
    · rintro uid' e h h'
      cases h
      refine ⟨by simp [requireAuth, h'], by simp [requireAdmin, h'], ?_⟩
      simp [requireAuth, h', Outcome.status]
    · rcases h : getUser uid with e | u
      · simp [requireAuth, h]
      · rcases u with _ | u
        · simp [requireAuth, h]
        · by_cases hact : u.isActive <;> simp [requireAuth, h, hact]
    · rcases h : getUser uid with e | u
      · simp [requireAdmin, h]
      · rcases u with _ | u
        · simp [requireAdmin, h]
        · by_cases hrole : u.role = "admin" <;> simp [requireAdmin, h, hrole]

/-- C7 witness: a concrete failing store surfaces the same error from both
guards, rendered as status 500, with at most one lookup each. -/
theorem guard_outcome_taxonomy_witness :
    (requireAuth (some 3) (fun _ => .error { msg := "db down" }) none).outcome
      = .storeFail { msg := "db down" } ∧
    (requireAdmin (some 3) (fun _ => .error { msg := "db down" })).outcome
      = .storeFail { msg := "db down" } ∧
    ((requireAuth (some 3) (fun _ => .error { msg := "db down" }) none).outcome).status
      = some 500 ∧
    (requireAuth (some 3) (fun _ => .error { msg := "db down" }) none).lookups ≤ 1 ∧
    (requireAdmin (some 3) (fun _ => .error { msg := "db down" })).lookups ≤ 1 := by
  obtain ⟨_, _, hprop, hl1, hl2⟩ :=
    guard_outcome_taxonomy (some 3) (fun _ => .error { msg := "db down" }) none
  obtain ⟨h1, h2, h3⟩ := hprop 3 { msg := "db down" } rfl rfl
  exact ⟨h1, h2, h3, hl1, hl2⟩

/-- C4: on the successful signup path the role handed to `createUser` is
`"admin"` exactly when the count of existing users is zero or the caller sets
the first-user flag, and `"health_worker"` in every other case. -/
theorem signup_role_assignment (req : SignupRequest) (s : UserStore)
    (hu : req.username ≠ "") (hp : req.password ≠ "") (hn : req.name ≠ "")
    (hdup : getUserByUsername s req.username = none) :
    (signup req s).createUserArg.map (fun f => f.role)
      = some (if (getAllUsers s).length = 0 ∨ req.isFirstUser = true
              then "admin" else "health_worker") := by
  unfold signup
  rw [if_neg (by simp [hu, hp, hn]), hdup]
  by_cases hcond : (getAllUsers s).length = 0 ∨ req.isFirstUser = true
  · simp [hcond]
  · simp [hcond]

/-- C4 witness: the first signup in an empty store gets role admin; a second
signup without the bootstrap flag gets role health-worker. -/
theorem signup_role_assignment_witness :
    (signup aliceReq emptyUsers).createUserArg.map (fun f => f.role) = some ("admin") ∧
    (signup bobReq (signup aliceReq emptyUsers).store).createUserArg.map (fun f => f.role)
      = some ("health_worker") := by
  constructor
  · rw [signup_role_assignment aliceReq emptyUsers (by decide) (by decide) (by decide) rfl]
    decide
  · rw [signup_role_assignment bobReq (signup aliceReq emptyUsers).store
      (by decide) (by decide) (by decide) (by decide)]
    decide

/-- C8: a signup request whose username matches an existing user is rejected
with the duplicate-username error (the Conflict case of the error taxonomy,
sent by this code as status 400 `"Username already exists"`), and the
rejection is atomic: `createUser` is never called and the store is returned
unchanged. -/
theorem signup_duplicate_username_rejected (req : SignupRequest) (s : UserStore)
    (u : User) (hu : req.username ≠ "") (hp : req.password ≠ "") (hn : req.name ≠ "")
    (hdup : getUserByUsername s req.username = some u) :
    signup req s = { response := .error 400 "Username already exists",
                     store := s, createUserArg := none } := by
  unfold signup
  rw [if_neg (by simp [hu, hp, hn]), hdup]

/-- C8 witness: re-signing up an existing username at a concrete store. -/
theorem signup_duplicate_username_rejected_witness :
    signup aliceReq storeWithAlice
      = { response := .error 400 "Username already exists",
          store := storeWithAlice, createUserArg := none } :=
  signup_duplicate_username_rejected aliceReq storeWithAlice activeUserSecret
    (by decide) (by decide) (by decide) (by decide)

/-- C10: the signup handler forwards the request-supplied password to
`createUser` unchanged — no hashing happens in the handler — while the login
handler authenticates by comparing the supplied password against the stored
one with `bcrypt.compare`. -/
theorem signup_plaintext_login_bcrypt (req : SignupRequest) (s : UserStore)
    (hu : req.username ≠ "") (hp : req.password ≠ "") (hn : req.name ≠ "")
    (hdup : getUserByUsername s req.username = none) :
    (signup req s).createUserArg.map (fun f => f.password) = some req.password ∧
    (∀ (bc : String → String → Bool) (username password : String) (u : User),
      username ≠ "" → password ≠ "" → getUserByUsername s username = some u →
      u.isActive = true →
      login bc username password s
        = (if bc password u.password then .userPayload u.toPublic
           else .error 401 "Invalid credentials")) := by
  constructor
  · unfold signup
    rw [if_neg (by simp [hu, hp, hn]), hdup]
    rfl
  · intro bc username password u hun hpw hfind hact
    unfold login
    rw [if_neg (by simp [hun, hpw]), hfind]
    simp [hact]

/-- C10 witness: a concrete signup stores the request's plaintext password,
and a concrete login succeeds exactly through the comparison function. -/
theorem signup_plaintext_login_bcrypt_witness :
    (signup bobReq storeWithAlice).createUserArg.map (fun f => f.password)
      = some bobReq.password ∧
    login (fun p stored => p == stored) activeUserSecret.username
        activeUserSecret.password storeWithAlice
      = .userPayload activeUserSecret.toPublic := by
  obtain ⟨h1, h2⟩ := signup_plaintext_login_bcrypt bobReq storeWithAlice
    (by decide) (by decide) (by decide) (by decide)
  refine ⟨h1, ?_⟩
  rw [h2 (fun p stored => p == stored) activeUserSecret.username
    activeUserSecret.password activeUserSecret (by decide) (by decide) (by decide) rfl]
  decide

/-- C9: patient identifiers are a fixed `"RH"` prefix followed by a
zero-padded (at least six digit) decimal numeral; two patients created in
sequence from any well-formed store receive distinct identifiers and distinct
QR tokens; and both are immutable once assigned — after the second creation,
fetching either patient returns exactly the record created for it, identifier
and token unchanged. -/
theorem patient_identifier_issuance (s : PatientStore) (hwf : s.Wf)
    (name1 name2 : String) :
    (createPatient s name1).1.patientId
      ≠ (createPatient (createPatient s name1).2 name2).1.patientId ∧
    (createPatient s name1).1.qrCode
      ≠ (createPatient (createPatient s name1).2 name2).1.qrCode ∧
    getPatient (createPatient (createPatient s name1).2 name2).2
        (createPatient s name1).1.id = some (createPatient s name1).1 ∧
    getPatient (createPatient (createPatient s name1).2 name2).2
        (createPatient (createPatient s name1).2 name2).1.id
      = some (createPatient (createPatient s name1).2 name2).1 ∧
    ∃ ds : List Nat, (∀ d ∈ ds, d < 10) ∧ 6 ≤ ds.length ∧
      (createPatient s name1).1.patientId = "RH" ++ String.mk (ds.map digitChar) := by
  have h0 : ∀ k, s.nextSeq ≤ k →
      s.patients.find? (fun p => decide (p.id = k)) = none := by
    intro k hk
    refine List.find?_eq_none.mpr (fun p hp => ?_)
    have := hwf p hp
    simp only [decide_eq_true_eq]
    omega
  simp only [createPatient, getPatient]
  refine ⟨?_, ?_, ?_, ?_, ?_⟩
  · intro h
    have := issuePatientIdentifier_inj s.nextSeq (s.nextSeq + 1) (by simpa using h)
    omega
  · intro h
    have := issueQrToken_inj s.nextSeq (s.nextSeq + 1) (by simpa using h)
    omega
  · simp [List.find?_append, h0 s.nextSeq (Nat.le_refl _)]
  · have hne : ¬ s.nextSeq = s.nextSeq + 1 := by omega
    simp [List.find?_append, h0 (s.nextSeq + 1) (Nat.le_succ _), hne]
  · exact ⟨padDigits 6 (natDigits s.nextSeq),
      padDigits_natDigits_all_lt 6 s.nextSeq, padDigits_length_ge 6 _, rfl⟩

/-- C9 witness: two patients created in sequence from the empty store carry
distinct identifiers and QR tokens, and fetching either afterwards returns
the record it was created with. -/
theorem patient_identifier_issuance_witness :
    (createPatient emptyPatients ("Asha")).1.patientId
      ≠ (createPatient (createPatient emptyPatients ("Asha")).2 ("Ravi")).1.patientId ∧
    (createPatient emptyPatients ("Asha")).1.qrCode
      ≠ (createPatient (createPatient emptyPatients ("Asha")).2 ("Ravi")).1.qrCode ∧
    getPatient (createPatient (createPatient emptyPatients ("Asha")).2 ("Ravi")).2
        (createPatient emptyPatients ("Asha")).1.id
      = some (createPatient emptyPatients ("Asha")).1 ∧
    getPatient (createPatient (createPatient emptyPatients ("Asha")).2 ("Ravi")).2
        (createPatient (createPatient emptyPatients ("Asha")).2 ("Ravi")).1.id
      = some (createPatient (createPatient emptyPatients ("Asha")).2 ("Ravi")).1 := by
  obtain ⟨h1, h2, h3, h4, _⟩ :=
    patient_identifier_issuance emptyPatients (by decide) ("Asha") ("Ravi")
  exact ⟨h1, h2, h3, h4⟩

end RuralHealth
